import Mathlib

/-!
Verification of the pill-position validators.

This file gives a shallow embedding of the two Python validators of the
repository (`main.py`, driver-based, and `validate_pills.py`, image-based)
and proves properties of the embedded functions.

Modelling conventions:
* Python floats are modelled as exact rationals (`ℚ`).
* Python `int(q)` (truncation toward zero) is modelled by `pyInt`.
* `datetime.time(h, m)`, which raises `ValueError` when `h ∉ [0,23]` or
  `m ∉ [0,59]`, is modelled by the fallible constructor `mkTime`.
* Raised exceptions are modelled with `Except PyError`; `PyError`
  distinguishes the `ValueError("Graph bounds not initialized")` raised on
  unset bounds, the `ZeroDivisionError` of dividing by a zero width, and the
  `ValueError` of the `time` constructor.
* The Appium / torch collaborators are abstracted: element rectangles and
  normalized image tensors are passed in as values; `strptime` parsing of
  time strings is abstracted by passing the already-parsed `TimeOfDay`
  (no claim below concerns the string parser itself).
* The human-readable report strings are kept only where a claim inspects
  them (the `"No pill detected"` message); numeric diagnostics formatting
  (`strftime`, `:.2f`) is not reproduced in the message text.
-/

/-- Screen rectangle as returned by `element.rect`: `{x, y, width, height}`. -/
structure Rect where
  x : ℚ
  y : ℚ
  width : ℚ
  height : ℚ
deriving DecidableEq

/-- Result of Python `datetime.time(hour, minute)` when construction succeeds. -/
structure TimeOfDay where
  hour : ℤ
  minute : ℤ
deriving DecidableEq

/-- Distinguishable exception kinds raised by the embedded code. -/
inductive PyError where
  /-- `ValueError("Graph bounds not initialized")`. -/
  | uninitializedBounds
  /-- `ZeroDivisionError` from dividing by a zero container width. -/
  | zeroDivision
  /-- `ValueError` raised by `datetime.time` on an out-of-range field. -/
  | valueError
deriving DecidableEq

/-- Python `int(q)`: truncation toward zero. -/
def pyInt (q : ℚ) : ℤ :=
  if 0 ≤ q then ⌊q⌋ else ⌈q⌉

/-- Python `datetime.time(h, m)`: requires `0 ≤ h ≤ 23` and `0 ≤ m ≤ 59`,
raising `ValueError` otherwise. -/
def mkTime (h m : ℤ) : Except PyError TimeOfDay :=
  if 0 ≤ h ∧ h ≤ 23 ∧ 0 ≤ m ∧ m ≤ 59 then .ok ⟨h, m⟩ else .error .valueError

/-- `AppPillPositionValidator.get_pill_position` (main.py). The pill
element's rectangle, found through the driver, is passed in as `pill_rect`;
the cached `self.graph_bounds` is the `Option Rect` argument. Returns the
pill's position relative to the graph bounds. -/
def get_pill_position (graph_bounds : Option Rect) (pill_rect : Rect) :
    Except PyError (ℚ × ℚ) :=
  match graph_bounds with
  | none => .error .uninitializedBounds
  | some b => .ok (pill_rect.x - b.x, pill_rect.y - b.y)

/-- `AppPillPositionValidator.convert_position_to_time` (main.py):
`time_in_hours = (x_position / width) * 24`; `hours = int(time_in_hours)`;
`minutes = int((time_in_hours - hours) * 60)`; `return time(hours, minutes)`.
Division by a zero width raises `ZeroDivisionError` in Python, modelled by
the explicit zero test. -/
def convert_position_to_time (graph_bounds : Option Rect) (x_position : ℚ) :
    Except PyError TimeOfDay :=
  match graph_bounds with
  | none => .error .uninitializedBounds
  | some b =>
    if b.width = 0 then .error .zeroDivision
    else
      let time_in_hours : ℚ := x_position / b.width * 24
      let hours : ℤ := pyInt time_in_hours
      let minutes : ℤ := pyInt ((time_in_hours - (hours : ℚ)) * 60)
      mkTime hours minutes

/-- Minute difference computed by `validate_pill_position` (main.py):
`abs(expected_minutes - actual_minutes)` with
`*_minutes = t.hour * 60 + t.minute`. -/
def difference_minutes (expected actual : TimeOfDay) : ℤ :=
  |(expected.hour * 60 + expected.minute) - (actual.hour * 60 + actual.minute)|

/-- `AppPillPositionValidator.validate_pill_position` (main.py). The
expected time string is passed already parsed; the pill element rectangle
stands in for the driver lookup. Returns the `is_valid` verdict
(`time_valid and y_valid`); the report message is not modelled here since
no claim concerns it. -/
def validate_pill_position (graph_bounds : Option Rect) (pill_rect : Rect)
    (expected_time : TimeOfDay) (tolerance_minutes : ℚ) : Except PyError Bool :=
  match graph_bounds with
  | none => .error .uninitializedBounds
  | some b =>
    let pill_position : ℚ × ℚ := (pill_rect.x - b.x, pill_rect.y - b.y)
    match convert_position_to_time (some b) pill_position.1 with
    | .error e => .error e
    | .ok actual_time =>
      let difference := difference_minutes expected_time actual_time
      let y_valid : Bool := decide (pill_position.2 ≤ b.height * (0.15 : ℚ))
      let time_valid : Bool := decide ((difference : ℚ) ≤ tolerance_minutes)
      .ok (time_valid && y_valid)

/-- Normalized image tensor of shape `(1, 3, H, W)`, modelled as rows
(the `y` axis) of pixels, each pixel an `(r, g, b)` triple of channel
values after `transforms.Normalize`. -/
abbrev NormalizedImage := List (List (ℚ × ℚ × ℚ))

/-- De-normalization step of `detect_red_pill` (validate_pills.py):
multiply each channel by its std and add its mean, inverting
`Normalize(mean=[0.485, 0.456, 0.406], std=[0.229, 0.224, 0.225])`. -/
def denormalize (p : ℚ × ℚ × ℚ) : ℚ × ℚ × ℚ :=
  (p.1 * (0.229 : ℚ) + (0.485 : ℚ),
   p.2.1 * (0.224 : ℚ) + (0.456 : ℚ),
   p.2.2 * (0.225 : ℚ) + (0.406 : ℚ))

/-- Red-pixel test of `detect_red_pill`: on the de-normalized image,
`(image[:, 0] > 0.6) & (image[:, 1] < 0.4) & (image[:, 2] < 0.4)`. -/
def is_red (p : ℚ × ℚ × ℚ) : Bool :=
  decide ((denormalize p).1 > (0.6 : ℚ)) &&
  decide ((denormalize p).2.1 < (0.4 : ℚ)) &&
  decide ((denormalize p).2.2 < (0.4 : ℚ))

/-- `PillPositionValidator.detect_red_pill` (validate_pills.py): the
boolean mask of red pixels, same shape as the image. -/
def detect_red_pill (tensor_image : NormalizedImage) : List (List Bool) :=
  tensor_image.map (fun row => row.map is_red)

/-- Index pairs `(y, x)` of the `True` entries of the mask, in the
row-major order produced by `torch.where(red_mask[0])`. -/
def mask_indices (red_mask : List (List Bool)) : List (ℕ × ℕ) :=
  (red_mask.enum.map (fun yr =>
    yr.2.enum.filterMap (fun xb => if xb.2 then some (yr.1, xb.1) else none))).flatten

/-- `PillPositionValidator.find_pill_position` (validate_pills.py):
`None` when the mask has no `True` entry, otherwise the centroid
`(mean of x indices, mean of y indices)`. -/
def find_pill_position (red_mask : List (List Bool)) : Option (ℚ × ℚ) :=
  let idx := mask_indices red_mask
  if idx.length = 0 then none
  else
    let x_center : ℚ := ((idx.map (fun p => (p.2 : ℚ))).sum) / (idx.length : ℚ)
    let y_center : ℚ := ((idx.map (fun p => (p.1 : ℚ))).sum) / (idx.length : ℚ)
    some (x_center, y_center)

/-- `PillPositionValidator.time_to_x_position` (validate_pills.py):
`hours = t.hour + t.minute / 60`; `(hours / 24) * image_width`. The time
string is passed already parsed. -/
def time_to_x_position (t : TimeOfDay) (image_width : ℚ) : ℚ :=
  ((t.hour : ℚ) + (t.minute : ℚ) / 60) / 24 * image_width

/-- `PillPositionValidator.validate_position` (validate_pills.py). Returns
`(is_valid, message)`; the message in the detected case reports the two
sub-verdicts (numeric formatting not reproduced), and in the undetected
case is the literal `"No pill detected"`. -/
def validate_position (detected_pos : Option (ℚ × ℚ)) (expected_time : TimeOfDay)
    (image_size : ℚ × ℚ) (tolerance_minutes : ℚ) : Bool × String :=
  match detected_pos with
  | none => (false, "No pill detected")
  | some dp =>
    let width := image_size.1
    let height := image_size.2
    let expected_x := time_to_x_position expected_time width
    let x_tolerance := tolerance_minutes / (24 * 60) * width
    let x_diff := |dp.1 - expected_x|
    let time_valid : Bool := decide (x_diff ≤ x_tolerance)
    let y_valid : Bool := decide (dp.2 ≤ height * (0.15 : ℚ))
    let is_valid := time_valid && y_valid
    (is_valid,
      "Time position: " ++ (if time_valid then "Valid" else "Invalid") ++
      "; Y position: " ++ (if y_valid then "Valid" else "Invalid"))

/-- Which of the three externally-fallible steps of
`validate_app_pill_position` (main.py) raise in a given run:
`setup_appium()`, `get_graph_bounds`, and `validate_pill_position`
(the latter covering its driver lookups and conversions). -/
structure DriverEnv where
  setup_fails : Bool
  get_graph_bounds_fails : Bool
  validate_fails : Bool

/-- Session accounting for one run of the driver-based routine:
how many times a driver session was acquired and released, and whether
the routine finished without an exception escaping. -/
structure SessionTrace where
  acquired : ℕ
  released : ℕ
  completed : Bool
deriving DecidableEq

/-- Control flow of `validate_app_pill_position` (main.py): a `try` block
that binds `driver = setup_appium()` and then runs the validation steps,
with `finally: driver.quit()`. When `setup_appium()` itself raises, the
name `driver` is never bound, so the `finally` block's `driver.quit()`
raises `NameError` and nothing is acquired or released; once setup has
succeeded, the `finally` block releases the session on every exit path,
whether or not a later step raises. -/
def validate_app_pill_position (env : DriverEnv) : SessionTrace :=
  if env.setup_fails then
    { acquired := 0, released := 0, completed := false }
  else
    { acquired := 1, released := 1,
      completed := !(env.get_graph_bounds_fails || env.validate_fails) }

/-! Shared helper lemmas. -/

lemma pyInt_of_nonneg {q : ℚ} (h : 0 ≤ q) : pyInt q = ⌊q⌋ := if_pos h

lemma hoursFloat_nonneg {b : Rect} {x : ℚ} (hx0 : 0 ≤ x) (hw : 0 < b.width) :
    0 ≤ x / b.width * 24 := by positivity

lemma hoursFloat_lt_24 {b : Rect} {x : ℚ} (hxw : x < b.width) (hw : 0 < b.width) :
    x / b.width * 24 < 24 := by
  have h1 : x / b.width < 1 := (div_lt_one hw).2 hxw
  nlinarith

/-- On `0 ≤ x < width` with `width > 0`, `convert_position_to_time` succeeds
and returns the floor-truncated hour and minute. -/
lemma convert_spec (b : Rect) (x : ℚ) (hx0 : 0 ≤ x) (hxw : x < b.width)
    (hw : 0 < b.width) :
    convert_position_to_time (some b) x =
      .ok ⟨⌊x / b.width * 24⌋,
           ⌊(x / b.width * 24 - (⌊x / b.width * 24⌋ : ℚ)) * 60⌋⟩ := by
  have hwne : b.width ≠ 0 := ne_of_gt hw
  have h0 : 0 ≤ x / b.width * 24 := hoursFloat_nonneg hx0 hw
  have h24 : x / b.width * 24 < 24 := hoursFloat_lt_24 hxw hw
  have hfr0 : 0 ≤ x / b.width * 24 - (⌊x / b.width * 24⌋ : ℚ) :=
    sub_nonneg.2 (Int.floor_le _)
  have hfr1 : x / b.width * 24 - (⌊x / b.width * 24⌋ : ℚ) < 1 :=
    sub_lt_iff_lt_add.2 (by have := Int.lt_floor_add_one (x / b.width * 24); linarith)
  have hm0 : 0 ≤ (x / b.width * 24 - (⌊x / b.width * 24⌋ : ℚ)) * 60 :=
    mul_nonneg hfr0 (by norm_num)
  have hm60 : (x / b.width * 24 - (⌊x / b.width * 24⌋ : ℚ)) * 60 < 60 := by nlinarith
  have hfl0 : (0 : ℤ) ≤ ⌊x / b.width * 24⌋ := Int.floor_nonneg.2 h0
  have hfl23 : ⌊x / b.width * 24⌋ ≤ 23 := by
    have : ⌊x / b.width * 24⌋ < (24 : ℤ) := Int.floor_lt.2 (by exact_mod_cast h24)
    omega
  have hmfl0 : (0 : ℤ) ≤ ⌊(x / b.width * 24 - (⌊x / b.width * 24⌋ : ℚ)) * 60⌋ :=
    Int.floor_nonneg.2 hm0
  have hmfl59 : ⌊(x / b.width * 24 - (⌊x / b.width * 24⌋ : ℚ)) * 60⌋ ≤ 59 := by
    have : ⌊(x / b.width * 24 - (⌊x / b.width * 24⌋ : ℚ)) * 60⌋ < (60 : ℤ) :=
      Int.floor_lt.2 (by exact_mod_cast hm60)
    omega
  simp only [convert_position_to_time, if_neg hwne, pyInt_of_nonneg h0,
    pyInt_of_nonneg hm0, mkTime]
  rw [if_pos ⟨hfl0, hfl23, hmfl0, hmfl59⟩]

/-- C1: on `0 ≤ x < width` with bounds set and `width > 0`,
`convert_position_to_time` returns a time with
`hour = ⌊(x / width) * 24⌋` and `minute = ⌊(hoursFloat - hour) * 60⌋`,
with `hour ∈ [0, 23]` and `minute ∈ [0, 59]`; truncation only. -/
theorem convert_position_to_time_in_range (b : Rect) (x : ℚ)
    (hx0 : 0 ≤ x) (hxw : x < b.width) (hw : 0 < b.width) :
    ∃ t : TimeOfDay,
      convert_position_to_time (some b) x = .ok t ∧
      t.hour = ⌊x / b.width * 24⌋ ∧
      t.minute = ⌊(x / b.width * 24 - (⌊x / b.width * 24⌋ : ℚ)) * 60⌋ ∧
      0 ≤ t.hour ∧ t.hour ≤ 23 ∧ 0 ≤ t.minute ∧ t.minute ≤ 59 := by
  refine ⟨_, convert_spec b x hx0 hxw hw, rfl, rfl, ?_, ?_, ?_, ?_⟩ <;> dsimp only
  · exact Int.floor_nonneg.2 (hoursFloat_nonneg hx0 hw)
  · have : ⌊x / b.width * 24⌋ < (24 : ℤ) :=
      Int.floor_lt.2 (by exact_mod_cast hoursFloat_lt_24 hxw hw)
    omega
  · refine Int.floor_nonneg.2 (mul_nonneg (sub_nonneg.2 (Int.floor_le _)) (by norm_num))
  · have hfr1 : x / b.width * 24 - (⌊x / b.width * 24⌋ : ℚ) < 1 :=
      sub_lt_iff_lt_add.2 (by have := Int.lt_floor_add_one (x / b.width * 24); linarith)
    have hfr0 : 0 ≤ x / b.width * 24 - (⌊x / b.width * 24⌋ : ℚ) :=
      sub_nonneg.2 (Int.floor_le _)
    have : ⌊(x / b.width * 24 - (⌊x / b.width * 24⌋ : ℚ)) * 60⌋ < (60 : ℤ) :=
      Int.floor_lt.2 (by push_cast; nlinarith)
    omega

/-- Witness for C1: at `x = 90` on a 1440-wide container, the conversion
returns 01:30 and the bounds hold. -/
theorem convert_position_to_time_in_range_witness :
    (0 : ℚ) ≤ 90 ∧ (90 : ℚ) < (Rect.mk 0 0 1440 100).width ∧
      (0 : ℚ) < (Rect.mk 0 0 1440 100).width ∧
      (∃ t : TimeOfDay,
        convert_position_to_time (some (Rect.mk 0 0 1440 100)) 90 = .ok t ∧
        t.hour = ⌊(90 : ℚ) / (Rect.mk 0 0 1440 100).width * 24⌋ ∧
        t.minute = ⌊((90 : ℚ) / (Rect.mk 0 0 1440 100).width * 24 -
          (⌊(90 : ℚ) / (Rect.mk 0 0 1440 100).width * 24⌋ : ℚ)) * 60⌋ ∧
        0 ≤ t.hour ∧ t.hour ≤ 23 ∧ 0 ≤ t.minute ∧ t.minute ≤ 59) :=
  ⟨by norm_num, by norm_num, by norm_num,
    convert_position_to_time_in_range (Rect.mk 0 0 1440 100) 90
      (by norm_num) (by norm_num) (by norm_num)⟩

/-- Unfolding of `validate_pill_position` when the position-to-time
conversion succeeds: the verdict is `time_valid and y_valid`. -/
lemma validate_pill_position_ok (b pr : Rect) (e : TimeOfDay) (tol : ℚ)
    (t : TimeOfDay)
    (hc : convert_position_to_time (some b) (pr.x - b.x) = .ok t) :
    validate_pill_position (some b) pr e tol =
      .ok (decide ((difference_minutes e t : ℚ) ≤ tol) &&
           decide (pr.y - b.y ≤ b.height * (0.15 : ℚ))) := by
  simp only [validate_pill_position, hc]

/-- C2: when the conversion succeeds and the y-band check passes, the
verdict of `validate_pill_position` is `true` iff
`abs((expected.hour*60+expected.minute) - (actual.hour*60+actual.minute))`
is at most the tolerance; a difference equal to the tolerance is valid and
`tolerance + 1` is invalid; midnight-adjacent times are 1436 minutes apart
(no wraparound). -/
theorem validate_pill_position_time_check (b pr : Rect) (e : TimeOfDay)
    (tol : ℚ) (t : TimeOfDay)
    (hc : convert_position_to_time (some b) (pr.x - b.x) = .ok t)
    (hy : pr.y - b.y ≤ b.height * (0.15 : ℚ)) :
    (validate_pill_position (some b) pr e tol = .ok true ↔
      ((|(e.hour * 60 + e.minute) - (t.hour * 60 + t.minute)| : ℤ) : ℚ) ≤ tol) ∧
    (((difference_minutes e t : ℤ) : ℚ) = tol →
      validate_pill_position (some b) pr e tol = .ok true) ∧
    (((difference_minutes e t : ℤ) : ℚ) = tol + 1 →
      validate_pill_position (some b) pr e tol = .ok false) ∧
    difference_minutes ⟨23, 58⟩ ⟨0, 2⟩ = 1436 := by
  have hv := validate_pill_position_ok b pr e tol t hc
  refine ⟨?_, ?_, ?_, ?_⟩
  · rw [hv]
    simp [difference_minutes, hy]
  · intro h
    rw [hv]
    simp [h, hy]
  · intro h
    have hnot : ¬ ((difference_minutes e t : ℚ) ≤ tol) := by rw [h]; linarith
    rw [hv]
    simp [hnot]
  · norm_num [difference_minutes]

/-- Witness for C2 at a concrete run: a 1440-wide container, pill at
`x = 720` (noon) with `y = 10`, expected time 12:00, tolerance 5. -/
theorem validate_pill_position_time_check_witness :
    convert_position_to_time (some (Rect.mk 0 0 1440 100))
        ((Rect.mk 720 10 5 5).x - (Rect.mk 0 0 1440 100).x) = .ok ⟨12, 0⟩ ∧
    (Rect.mk 720 10 5 5).y - (Rect.mk 0 0 1440 100).y ≤
        (Rect.mk 0 0 1440 100).height * (0.15 : ℚ) ∧
    ((validate_pill_position (some (Rect.mk 0 0 1440 100)) (Rect.mk 720 10 5 5)
          ⟨12, 0⟩ 5 = .ok true ↔
        ((|((12 : ℤ) * 60 + 0) - ((12 : ℤ) * 60 + 0)| : ℤ) : ℚ) ≤ 5) ∧
      (((difference_minutes ⟨12, 0⟩ ⟨12, 0⟩ : ℤ) : ℚ) = 5 →
        validate_pill_position (some (Rect.mk 0 0 1440 100)) (Rect.mk 720 10 5 5)
          ⟨12, 0⟩ 5 = .ok true) ∧
      (((difference_minutes ⟨12, 0⟩ ⟨12, 0⟩ : ℤ) : ℚ) = 5 + 1 →
        validate_pill_position (some (Rect.mk 0 0 1440 100)) (Rect.mk 720 10 5 5)
          ⟨12, 0⟩ 5 = .ok false) ∧
      difference_minutes ⟨23, 58⟩ ⟨0, 2⟩ = 1436) :=
  ⟨by norm_num [convert_position_to_time, pyInt, mkTime],
   by norm_num,
   validate_pill_position_time_check (Rect.mk 0 0 1440 100) (Rect.mk 720 10 5 5)
     ⟨12, 0⟩ 5 ⟨12, 0⟩
     (by norm_num [convert_position_to_time, pyInt, mkTime])
     (by norm_num)⟩

/-- C3: in both validators the vertical-band check passes iff
`y ≤ height * 0.15` (so the boundary value passes and any `y ≤ 0` passes
when the height is non-negative), and the overall verdict is the
conjunction `time_valid && y_valid`. -/
theorem vertical_band_and_conjunction :
    (∀ (dp : ℚ × ℚ) (e : TimeOfDay) (W H tol : ℚ),
      (validate_position (some dp) e (W, H) tol).1 =
        (decide (|dp.1 - time_to_x_position e W| ≤ tol / (24 * 60) * W) &&
         decide (dp.2 ≤ H * (0.15 : ℚ)))) ∧
    (∀ (b pr : Rect) (e : TimeOfDay) (tol : ℚ) (t : TimeOfDay),
      convert_position_to_time (some b) (pr.x - b.x) = .ok t →
      validate_pill_position (some b) pr e tol =
        .ok (decide ((difference_minutes e t : ℚ) ≤ tol) &&
             decide (pr.y - b.y ≤ b.height * (0.15 : ℚ)))) ∧
    (∀ y H : ℚ, y = H * (0.15 : ℚ) → y ≤ H * (0.15 : ℚ)) ∧
    (∀ y H : ℚ, 0 ≤ H → y ≤ 0 → y ≤ H * (0.15 : ℚ)) := by
  refine ⟨?_, ?_, ?_, ?_⟩
  · intro dp e W H tol
    simp only [validate_position]
  · intro b pr e tol t hc
    exact validate_pill_position_ok b pr e tol t hc
  · intro y H h
    exact le_of_eq h
  · intro y H hH hy
    exact le_trans hy (mul_nonneg hH (by norm_num))

/-- Witness for C3: both validators' verdicts at concrete inputs, and both
boundary facts at concrete values, with every hypothesis discharged. -/
theorem vertical_band_and_conjunction_witness :
    ((validate_position (some ((720 : ℚ), 15)) ⟨12, 0⟩ ((1440 : ℚ), 100) 5).1 =
      (decide (|(720 : ℚ) - time_to_x_position ⟨12, 0⟩ 1440| ≤ 5 / (24 * 60) * 1440) &&
       decide ((15 : ℚ) ≤ 100 * (0.15 : ℚ)))) ∧
    (validate_pill_position (some (Rect.mk 0 0 1440 100)) (Rect.mk 720 10 5 5)
        ⟨12, 0⟩ 5 =
      .ok (decide ((difference_minutes ⟨12, 0⟩ ⟨12, 0⟩ : ℚ) ≤ 5) &&
           decide ((Rect.mk 720 10 5 5).y - (Rect.mk 0 0 1440 100).y ≤
             (Rect.mk 0 0 1440 100).height * (0.15 : ℚ)))) ∧
    ((15 : ℚ) ≤ 100 * (0.15 : ℚ)) ∧
    ((-3 : ℚ) ≤ 100 * (0.15 : ℚ)) :=
  ⟨vertical_band_and_conjunction.1 (720, 15) ⟨12, 0⟩ 1440 100 5,
   vertical_band_and_conjunction.2.1 (Rect.mk 0 0 1440 100) (Rect.mk 720 10 5 5)
     ⟨12, 0⟩ 5 ⟨12, 0⟩ (by norm_num [convert_position_to_time, pyInt, mkTime]),
   vertical_band_and_conjunction.2.2.1 15 100 (by norm_num),
   vertical_band_and_conjunction.2.2.2 (-3) 100 (by norm_num) (by norm_num)⟩

/-- Helper: a mask whose entries are all `false` yields no indices. -/
lemma mask_indices_eq_nil {mask : List (List Bool)}
    (h : ∀ row ∈ mask, ∀ b ∈ row, b = false) : mask_indices mask = [] := by
  rw [mask_indices, List.flatten_eq_nil_iff]
  intro l hl
  obtain ⟨yr, hyr, rfl⟩ := List.mem_map.1 hl
  rw [List.filterMap_eq_nil_iff]
  intro xb hxb
  have hrow : yr.2 ∈ mask := by
    have := List.mem_map_of_mem Prod.snd hyr
    rwa [List.enum_map_snd] at this
  have hbit : xb.2 ∈ yr.2 := by
    have := List.mem_map_of_mem Prod.snd hxb
    rwa [List.enum_map_snd] at this
  simp [h yr.2 hrow xb.2 hbit]

/-- C4: `detect_red_pill` classifies the pixel at `(y, x)` red iff the
de-normalized channels satisfy `R > 0.6 ∧ G < 0.4 ∧ B < 0.4`, and
`find_pill_position` on a mask with at least one red pixel returns the
centroid, i.e. the arithmetic means of the x and y indices of the red
pixels. -/
theorem detect_red_pill_and_centroid :
    (∀ (img : NormalizedImage) (y x : ℕ),
      ((detect_red_pill img)[y]?.bind (fun row => row[x]?)) =
        (img[y]?.bind (fun row => row[x]?)).map is_red) ∧
    (∀ p : ℚ × ℚ × ℚ, is_red p = true ↔
      ((denormalize p).1 > (0.6 : ℚ) ∧ (denormalize p).2.1 < (0.4 : ℚ) ∧
        (denormalize p).2.2 < (0.4 : ℚ))) ∧
    (∀ img : NormalizedImage, mask_indices (detect_red_pill img) ≠ [] →
      find_pill_position (detect_red_pill img) =
        some ((((mask_indices (detect_red_pill img)).map
                  (fun p => (p.2 : ℚ))).sum /
                ((mask_indices (detect_red_pill img)).length : ℚ)),
              (((mask_indices (detect_red_pill img)).map
                  (fun p => (p.1 : ℚ))).sum /
                ((mask_indices (detect_red_pill img)).length : ℚ)))) := by
  refine ⟨?_, ?_, ?_⟩
  · intro img y x
    rw [detect_red_pill, List.getElem?_map]
    cases img[y]? with
    | none => rfl
    | some row => simp [List.getElem?_map]
  · intro p
    simp [is_red, and_assoc]
  · intro img h
    rw [find_pill_position]
    simp only
    rw [if_neg (by simpa [List.length_eq_zero] using h)]

/-- Witness for C4's centroid clause: a one-pixel image whose single pixel
de-normalizes to `(0.714, 0.232, 0.181)` and is therefore red. -/
theorem detect_red_pill_and_centroid_witness :
    mask_indices (detect_red_pill [[((1 : ℚ), (-1 : ℚ), (-1 : ℚ))]]) ≠ [] ∧
    find_pill_position (detect_red_pill [[((1 : ℚ), (-1 : ℚ), (-1 : ℚ))]]) =
      some
        (((mask_indices (detect_red_pill [[((1 : ℚ), (-1 : ℚ), (-1 : ℚ))]])).map
            (fun p => (p.2 : ℚ))).sum /
          ((mask_indices (detect_red_pill [[((1 : ℚ), (-1 : ℚ), (-1 : ℚ))]])).length : ℚ),
         ((mask_indices (detect_red_pill [[((1 : ℚ), (-1 : ℚ), (-1 : ℚ))]])).map
            (fun p => (p.1 : ℚ))).sum /
          ((mask_indices (detect_red_pill [[((1 : ℚ), (-1 : ℚ), (-1 : ℚ))]])).length : ℚ)) :=
  ⟨by norm_num [mask_indices, detect_red_pill, is_red, denormalize, List.enum]; decide,
   detect_red_pill_and_centroid.2.2 [[((1 : ℚ), (-1 : ℚ), (-1 : ℚ))]]
     (by norm_num [mask_indices, detect_red_pill, is_red, denormalize, List.enum]; decide)⟩

/-- C5: a mask containing zero red pixels makes `find_pill_position`
return the no-detection sentinel `none`, and `validate_position` on that
sentinel returns `is_valid = false` with the message `"No pill detected"`,
never a default position. -/
theorem no_detection_sentinel (mask : List (List Bool)) (e : TimeOfDay)
    (sz : ℚ × ℚ) (tol : ℚ)
    (h : ∀ row ∈ mask, ∀ b ∈ row, b = false) :
    find_pill_position mask = none ∧
    validate_position (find_pill_position mask) e sz tol =
      (false, "No pill detected") := by
  have hm : mask_indices mask = [] := mask_indices_eq_nil h
  have hf : find_pill_position mask = none := by
    rw [find_pill_position]
    simp [hm]
  exact ⟨hf, by rw [hf]; rfl⟩

/-- Witness for C5: an all-false 2×2 mask. -/
theorem no_detection_sentinel_witness :
    (∀ row ∈ [[false, false], [false, false]], ∀ b ∈ row, b = false) ∧
    (find_pill_position [[false, false], [false, false]] = none ∧
      validate_position (find_pill_position [[false, false], [false, false]])
        ⟨20, 0⟩ ((100 : ℚ), 100) 5 = (false, "No pill detected")) :=
  ⟨by decide,
   no_detection_sentinel [[false, false], [false, false]] ⟨20, 0⟩ (100, 100) 5
     (by decide)⟩

/-- C6: converting `x ∈ [0, width)` to a time and mapping the time back
with `time_to_x_position` returns to within one minute's worth of pixels
(`width / 1440`) of `x`; for `x = width / 2` the time is 12:00 and the
round trip is exact. -/
theorem round_trip_position_time (b : Rect) (x : ℚ)
    (hx0 : 0 ≤ x) (hxw : x < b.width) (hw : 0 < b.width) :
    ∃ t : TimeOfDay,
      convert_position_to_time (some b) x = .ok t ∧
      |time_to_x_position t b.width - x| ≤ b.width / 1440 ∧
      (x = b.width / 2 → t = ⟨12, 0⟩ ∧ time_to_x_position t b.width = x) := by
  have hwne : b.width ≠ 0 := ne_of_gt hw
  refine ⟨_, convert_spec b x hx0 hxw hw, ?_, ?_⟩
  · rw [time_to_x_position]
    dsimp only
    set hq := x / b.width * 24 with hhq
    set Hf : ℤ := ⌊hq⌋ with hHf
    set Mf : ℤ := ⌊(hq - (Hf : ℚ)) * 60⌋ with hMf
    have hx : hq / 24 * b.width = x := by rw [hhq]; field_simp; ring
    have hm : (Mf : ℚ) ≤ (hq - (Hf : ℚ)) * 60 := by rw [hMf]; exact Int.floor_le _
    have hm1 : (hq - (Hf : ℚ)) * 60 < (Mf : ℚ) + 1 := by
      rw [hMf]; exact Int.lt_floor_add_one _
    have key : ((Hf : ℚ) + (Mf : ℚ) / 60) / 24 * b.width - x =
        ((Mf : ℚ) - (hq - (Hf : ℚ)) * 60) * b.width / 1440 := by
      rw [← hx]; ring
    rw [abs_le]
    constructor
    · rw [key]
      nlinarith [mul_pos hw (show (0 : ℚ) < (Mf : ℚ) - (hq - (Hf : ℚ)) * 60 + 1 by
        linarith)]
    · rw [key]
      nlinarith [mul_nonneg (show (0 : ℚ) ≤ (hq - (Hf : ℚ)) * 60 - (Mf : ℚ) by
        linarith) hw.le]
  · intro hx2
    have hq12 : x / b.width * 24 = 12 := by rw [hx2]; field_simp; ring
    have hH : ⌊x / b.width * 24⌋ = 12 := by rw [hq12]; norm_num
    have hM : ⌊(x / b.width * 24 - (⌊x / b.width * 24⌋ : ℚ)) * 60⌋ = 0 := by
      rw [hq12]; norm_num
    refine ⟨?_, ?_⟩
    · rw [TimeOfDay.mk.injEq]
      exact ⟨hH, hM⟩
    · rw [time_to_x_position]
      dsimp only
      rw [hM, hH, hx2]
      push_cast
      ring

/-- Witness for C6: `x = 720` on a 1440-wide container round-trips. -/
theorem round_trip_position_time_witness :
    (0 : ℚ) ≤ 720 ∧ (720 : ℚ) < (Rect.mk 0 0 1440 100).width ∧
      (0 : ℚ) < (Rect.mk 0 0 1440 100).width ∧
      (∃ t : TimeOfDay,
        convert_position_to_time (some (Rect.mk 0 0 1440 100)) 720 = .ok t ∧
        |time_to_x_position t (Rect.mk 0 0 1440 100).width - 720| ≤
          (Rect.mk 0 0 1440 100).width / 1440 ∧
        ((720 : ℚ) = (Rect.mk 0 0 1440 100).width / 2 →
          t = ⟨12, 0⟩ ∧ time_to_x_position t (Rect.mk 0 0 1440 100).width = 720)) :=
  ⟨by norm_num, by norm_num, by norm_num,
    round_trip_position_time (Rect.mk 0 0 1440 100) 720
      (by norm_num) (by norm_num) (by norm_num)⟩

/-- Counterexample for C7: with bounds set but `width = 0`, the code
raises `ZeroDivisionError` from `x_position / width`, which is not the
`ValueError("Graph bounds not initialized")` uninitialized-bounds error
that the claim names for this case. -/
theorem width_zero_error_counterexample :
    convert_position_to_time (some (Rect.mk 0 0 0 50)) 5 =
      .error PyError.zeroDivision ∧
    convert_position_to_time none 5 = .error PyError.uninitializedBounds ∧
    PyError.zeroDivision ≠ PyError.uninitializedBounds := by
  refine ⟨?_, rfl, by decide⟩
  norm_num [convert_position_to_time]

/-- C7 as amended: `convert_position_to_time` fails with the
uninitialized-bounds `ValueError` when bounds were never fetched, and
fails with `ZeroDivisionError` (a different error) when bounds are set
with a zero width; `get_pill_position` raises the same
uninitialized-bounds error when bounds were not set. -/
theorem uninitialized_bounds_errors :
    (∀ x : ℚ, convert_position_to_time none x =
      .error PyError.uninitializedBounds) ∧
    (∀ (b : Rect) (x : ℚ), b.width = 0 →
      convert_position_to_time (some b) x = .error PyError.zeroDivision) ∧
    (∀ pr : Rect, get_pill_position none pr =
      .error PyError.uninitializedBounds) := by
  refine ⟨fun x => rfl, ?_, fun pr => rfl⟩
  intro b x h
  simp [convert_position_to_time, h]

/-- Witness for C7's amended statement at a zero-width rectangle. -/
theorem uninitialized_bounds_errors_witness :
    (Rect.mk 0 0 0 50).width = 0 ∧
    convert_position_to_time (some (Rect.mk 0 0 0 50)) 7 =
      .error PyError.zeroDivision :=
  ⟨rfl, uninitialized_bounds_errors.2.1 (Rect.mk 0 0 0 50) 7 rfl⟩

/-- C9: on every run of the driver-based routine, everything acquired is
released (no leaked session) and the session is acquired at most once;
whenever `setup_appium()` succeeds the session is acquired exactly once
and released exactly once, also on the exit paths where a later step
raises. -/
theorem session_released_on_all_paths (env : DriverEnv) :
    ((validate_app_pill_position env).released =
      (validate_app_pill_position env).acquired) ∧
    (validate_app_pill_position env).acquired ≤ 1 ∧
    (env.setup_fails = false →
      (validate_app_pill_position env).acquired = 1 ∧
      (validate_app_pill_position env).released = 1) := by
  cases h : env.setup_fails <;>
    simp [validate_app_pill_position, h]

/-- Witness for C9: a run where `get_graph_bounds` raises still releases
the session. -/
theorem session_released_on_all_paths_witness :
    (DriverEnv.mk false true false).setup_fails = false ∧
    ((validate_app_pill_position (DriverEnv.mk false true false)).released =
      (validate_app_pill_position (DriverEnv.mk false true false)).acquired) ∧
    (validate_app_pill_position (DriverEnv.mk false true false)).acquired = 1 ∧
    (validate_app_pill_position (DriverEnv.mk false true false)).released = 1 :=
  ⟨rfl,
   (session_released_on_all_paths (DriverEnv.mk false true false)).1,
   (session_released_on_all_paths (DriverEnv.mk false true false)).2.2 rfl⟩

/-- Counterexample for C10's totality clause: the function is not total
only on `[0, width)`: at `x = -1` on a 2880-wide container (so
`x ∉ [0, width)`) the conversion still returns a time, 00:00, because
Python `int()` truncates toward zero on the small negative intermediate
values. -/
theorem negative_position_counterexample :
    convert_position_to_time (some (Rect.mk 0 0 2880 100)) (-1) =
      .ok ⟨0, 0⟩ ∧ ¬ ((0 : ℚ) ≤ -1) := by
  have h1 : ⌈(-(1 / 120) : ℚ)⌉ = 0 := by norm_num
  have h2 : ⌈(-(1 / 2) : ℚ)⌉ = 0 := by norm_num
  refine ⟨?_, by norm_num⟩
  norm_num [convert_position_to_time, pyInt, mkTime, h1, h2]

/-- C10 as amended: for `x` equal to the container width the computed hour
is 24, which the `time` constructor rejects, so the call raises rather
than returning a time; the same holds for every `x ≥ width`, and the
conversion is total on `[0, width)` — but `[0, width)` is not exactly its
domain of definition, since small negative `x` also succeeds (see the
counterexample). -/
theorem boundary_totality (b : Rect) (hw : 0 < b.width) :
    convert_position_to_time (some b) b.width = .error PyError.valueError ∧
    pyInt (b.width / b.width * 24) = 24 ∧
    (∀ x : ℚ, 0 ≤ x → x < b.width →
      ∃ t, convert_position_to_time (some b) x = .ok t) ∧
    (∀ x : ℚ, b.width ≤ x →
      convert_position_to_time (some b) x = .error PyError.valueError) := by
  have hwne : b.width ≠ 0 := ne_of_gt hw
  have habove : ∀ x : ℚ, b.width ≤ x →
      convert_position_to_time (some b) x = .error PyError.valueError := by
    intro x hx
    have hx0 : 0 ≤ x := le_trans hw.le hx
    have h0 : 0 ≤ x / b.width * 24 := hoursFloat_nonneg hx0 hw
    have h24 : (24 : ℚ) ≤ x / b.width * 24 := by
      have h1 : (1 : ℚ) ≤ x / b.width := (one_le_div hw).2 hx
      nlinarith
    have hfl : (24 : ℤ) ≤ ⌊x / b.width * 24⌋ := Int.le_floor.2 (by exact_mod_cast h24)
    simp only [convert_position_to_time, if_neg hwne, pyInt_of_nonneg h0, mkTime]
    rw [if_neg]
    rintro ⟨-, h23, -⟩
    omega
  refine ⟨habove b.width le_rfl, ?_, ?_, habove⟩
  · rw [div_self hwne]
    norm_num [pyInt]
  · intro x hx0 hxw
    exact ⟨_, convert_spec b x hx0 hxw hw⟩

/-- Witness for C10's amended statement on a 1440-wide container. -/
theorem boundary_totality_witness :
    (0 : ℚ) < (Rect.mk 0 0 1440 100).width ∧
    (convert_position_to_time (some (Rect.mk 0 0 1440 100))
        (Rect.mk 0 0 1440 100).width = .error PyError.valueError ∧
      pyInt ((Rect.mk 0 0 1440 100).width / (Rect.mk 0 0 1440 100).width * 24) =
        24 ∧
      (∀ x : ℚ, 0 ≤ x → x < (Rect.mk 0 0 1440 100).width →
        ∃ t, convert_position_to_time (some (Rect.mk 0 0 1440 100)) x = .ok t) ∧
      (∀ x : ℚ, (Rect.mk 0 0 1440 100).width ≤ x →
        convert_position_to_time (some (Rect.mk 0 0 1440 100)) x =
          .error PyError.valueError)) :=
  ⟨by norm_num, boundary_totality (Rect.mk 0 0 1440 100) (by norm_num)⟩

/-- Counterexample for C8: the pixel-tolerance verdict and the
convert-then-compare-minutes verdict are not equal. At detected position
`x = 5.5` on a 1440-wide image with expected time 00:00 and tolerance 5,
the pixel check fails (`5.5 > 5` pixels, one pixel per minute here) while
the minute check passes (the position converts to 00:05, difference 5 ≤ 5). -/
theorem pixel_vs_minute_counterexample :
    (validate_position (some ((11 / 2 : ℚ), 0)) ⟨0, 0⟩ ((1440 : ℚ), 100) 5).1 =
      false ∧
    validate_pill_position (some (Rect.mk 0 0 1440 100))
      (Rect.mk (11 / 2) 0 1 1) ⟨0, 0⟩ 5 = .ok true := by
  constructor
  · norm_num [validate_position, time_to_x_position, abs_of_nonneg]
  · have hc : convert_position_to_time (some (Rect.mk 0 0 1440 100))
        ((Rect.mk (11 / 2) 0 1 1).x - (Rect.mk 0 0 1440 100).x) = .ok ⟨0, 5⟩ := by
      norm_num [convert_position_to_time, pyInt, mkTime]
    rw [validate_pill_position_ok _ _ _ _ _ hc]
    norm_num [difference_minutes]

/-- Helper: the hour/minute truncation of `convert_position_to_time`
composes to the floor of the position expressed in minutes. -/
lemma floor_hour_minute_sum (q : ℚ) :
    ⌊q / 60⌋ * 60 + ⌊(q / 60 - (⌊q / 60⌋ : ℚ)) * 60⌋ = ⌊q⌋ := by
  have h1 : (q / 60 - (⌊q / 60⌋ : ℚ)) * 60 = q - ((⌊q / 60⌋ * 60 : ℤ) : ℚ) := by
    push_cast
    ring
  rw [h1, Int.floor_sub_int]
  omega

/-- C8 as amended: the pixel-tolerance time check of `validate_position`
refines the convert-then-compare-minutes check of the driver-based
validator in one direction: for integer tolerance, a detected centroid
inside `[0, width)` that `validate_position` accepts is also accepted by
`validate_pill_position` run on the same geometry (bounds anchored at the
origin with the same width and height). The converse fails, because
truncating the position to whole minutes can only shrink the measured
difference (see the counterexample). -/
theorem pixel_check_implies_minute_check (W H px py pw ph : ℚ)
    (e : TimeOfDay) (tz : ℤ)
    (hw : 0 < W) (hx0 : 0 ≤ px) (hxw : px < W)
    (hv : (validate_position (some (px, py)) e (W, H) (tz : ℚ)).1 = true) :
    validate_pill_position (some (Rect.mk 0 0 W H)) (Rect.mk px py pw ph) e
      (tz : ℚ) = .ok true := by
  have hwne : W ≠ 0 := ne_of_gt hw
  -- Unpack the image-based verdict into its two conditions.
  simp only [validate_position, Bool.and_eq_true, decide_eq_true_eq] at hv
  obtain ⟨ht, hy⟩ := hv
  -- The conversion of the relative position (px - 0) succeeds.
  have hx0' : (0 : ℚ) ≤ px - 0 := by rwa [sub_zero]
  have hxw' : px - 0 < (Rect.mk 0 0 W H).width := by rwa [sub_zero]
  have hc : convert_position_to_time (some (Rect.mk 0 0 W H))
      ((Rect.mk px py pw ph).x - (Rect.mk 0 0 W H).x) =
      .ok ⟨⌊(px - 0) / (Rect.mk 0 0 W H).width * 24⌋,
           ⌊((px - 0) / (Rect.mk 0 0 W H).width * 24 -
             (⌊(px - 0) / (Rect.mk 0 0 W H).width * 24⌋ : ℚ)) * 60⌋⟩ :=
    convert_spec (Rect.mk 0 0 W H) (px - 0) hx0' hxw' hw
  rw [validate_pill_position_ok _ _ _ _ _ hc]
  simp only [Except.ok.injEq, Bool.and_eq_true, decide_eq_true_eq]
  refine ⟨?_, ?_⟩
  · -- Time check: |E - floor(minutes)| ≤ tz follows from the pixel bound.
    set E : ℤ := e.hour * 60 + e.minute with hE
    have htx : time_to_x_position e W = (E : ℚ) / 1440 * W := by
      rw [time_to_x_position, hE]
      push_cast
      ring
    have hW1440 : (0 : ℚ) < W / 1440 := by positivity
    have hpx_eq : px - (E : ℚ) / 1440 * W = (px / W * 1440 - E) * (W / 1440) := by
      field_simp
      ring
    rw [htx, hpx_eq, abs_mul, abs_of_pos hW1440] at ht
    have ht2 : |px / W * 1440 - (E : ℚ)| ≤ (tz : ℚ) := by
      have hres : (tz : ℚ) / (24 * 60) * W = (tz : ℚ) * (W / 1440) := by ring
      rw [hres] at ht
      exact le_of_mul_le_mul_right ht hW1440
    have h1 : (E : ℚ) - tz ≤ px / W * 1440 := by
      have := abs_le.1 ht2
      linarith [this.1]
    have h2 : px / W * 1440 ≤ (E : ℚ) + tz := by
      have := abs_le.1 ht2
      linarith [this.2]
    have h1z : E - tz ≤ ⌊px / W * 1440⌋ := Int.le_floor.2 (by push_cast; linarith)
    have h2z : ⌊px / W * 1440⌋ ≤ E + tz := by
      have hle : ⌊px / W * 1440⌋ ≤ ⌊((E + tz : ℤ) : ℚ)⌋ :=
        Int.floor_le_floor (by push_cast; linarith)
      rwa [Int.floor_intCast] at hle
    have hmins : ⌊(px - 0) / (Rect.mk 0 0 W H).width * 24⌋ * 60 +
        ⌊((px - 0) / (Rect.mk 0 0 W H).width * 24 -
          (⌊(px - 0) / (Rect.mk 0 0 W H).width * 24⌋ : ℚ)) * 60⌋ =
        ⌊px / W * 1440⌋ := by
      have harg : (px - 0) / (Rect.mk 0 0 W H).width * 24 = px / W * 1440 / 60 := by
        rw [sub_zero]
        ring
      rw [harg]
      exact floor_hour_minute_sum (px / W * 1440)
    have hdiff : |E - ⌊px / W * 1440⌋| ≤ tz := abs_le.2 ⟨by omega, by omega⟩
    rw [difference_minutes]
    dsimp only
    rw [hmins]
    exact_mod_cast hdiff
  · dsimp only
    rwa [sub_zero]

/-- Witness for C8's amended statement: centroid at noon position 720 on a
1440-wide image, expected 12:00, tolerance 5; the image-based validator
accepts and so does the driver-based one. -/
theorem pixel_check_implies_minute_check_witness :
    (0 : ℚ) < 1440 ∧ (0 : ℚ) ≤ 720 ∧ (720 : ℚ) < 1440 ∧
    (validate_position (some ((720 : ℚ), 0)) ⟨12, 0⟩ ((1440 : ℚ), 100)
      ((5 : ℤ) : ℚ)).1 = true ∧
    validate_pill_position (some (Rect.mk 0 0 1440 100)) (Rect.mk 720 0 1 1)
      ⟨12, 0⟩ ((5 : ℤ) : ℚ) = .ok true := by
  have hv : (validate_position (some ((720 : ℚ), 0)) ⟨12, 0⟩ ((1440 : ℚ), 100)
      ((5 : ℤ) : ℚ)).1 = true := by
    norm_num [validate_position, time_to_x_position]
  exact ⟨by norm_num, by norm_num, by norm_num, hv,
    pixel_check_implies_minute_check 1440 100 720 0 1 1 ⟨12, 0⟩ 5
      (by norm_num) (by norm_num) (by norm_num) hv⟩
